import Mathlib

/-!
Shallow embedding of the auth-service core (multi-tenant identity service).

Sources embedded here:
  - app/config.py            : process settings and the static tenant map
  - app/core/tenant_manager.py : TenantManager configuration lookups
  - app/core/auth.py         : AuthService (lockout state machine, API-key
                               validation, password policy) and get_current_user
  - app/core/security.py     : token issuance/verification (JWT modeled as a
                               signed record), API-key hashing
  - app/api/auth.py          : login, register, reset_password flows
  - app/api/users.py         : change_password

Modeling conventions:
  - datetimes are Nat seconds; timedelta(minutes=m) is 60 * m,
    timedelta(days=d) is 86400 * d
  - bcrypt password hashing/verification is an external collaborator and is
    passed in as explicit function parameters (hashp / verifyp); the mock
    instances used in concrete witnesses tag the plaintext
  - the document store is a record of lists; beanie save replaces the
    document with the same id; find_one is List.find?
  - UUIDs are Nat; str(uuid) is toString and the UUID(user_id) parse in
    get_user_by_id is decimal parsing (idOfStr); a failed parse falls back
    to comparing a raw string against a UUID field, which never matches,
    hence none
-/

set_option autoImplicit false

namespace AuthSvc

/-! ## app/config.py : Settings (the integer-valued attributes the core reads) -/

def settings_ACCESS_TOKEN_EXPIRE_MINUTES : Nat := 15

def settings_REFRESH_TOKEN_EXPIRE_DAYS : Nat := 7

def settings_API_KEY_EXPIRE_DAYS : Nat := 365

def settings_PASSWORD_MIN_LENGTH : Nat := 8

def settings_MAX_LOGIN_ATTEMPTS : Nat := 5

def settings_LOCKOUT_DURATION_MINUTES : Nat := 30

def settings_SMTP_PORT : Nat := 587

/-- getattr(settings, name, _) restricted to the integer attributes above;
every other name (including "LOGIN_ATTEMPTS", which Settings does not
define) is absent. -/
def settingsIntAttr : String → Option Nat
  | "ACCESS_TOKEN_EXPIRE_MINUTES" => some settings_ACCESS_TOKEN_EXPIRE_MINUTES
  | "REFRESH_TOKEN_EXPIRE_DAYS" => some settings_REFRESH_TOKEN_EXPIRE_DAYS
  | "API_KEY_EXPIRE_DAYS" => some settings_API_KEY_EXPIRE_DAYS
  | "PASSWORD_MIN_LENGTH" => some settings_PASSWORD_MIN_LENGTH
  | "MAX_LOGIN_ATTEMPTS" => some settings_MAX_LOGIN_ATTEMPTS
  | "LOCKOUT_DURATION_MINUTES" => some settings_LOCKOUT_DURATION_MINUTES
  | "SMTP_PORT" => some settings_SMTP_PORT
  | _ => none

/-- Nested configuration value: the Python dict[str, Any] tree stored under
settings.TENANTS. Only the shapes that actually occur in config.py are
represented (ints, bools, strings, lists of strings, nested dicts). -/
inductive CVal where
  | nat (n : Nat)
  | bool (b : Bool)
  | str (s : String)
  | strs (l : List String)
  | dict (d : List (String × CVal))

/-- Python value[key] on a dict (assoc-list lookup). -/
def cvalGet : CVal → String → Option CVal
  | .dict d, k => d.lookup k
  | _, _ => none

/-- Python str.split(sep) for the single-character separators this code
uses, computed structurally over the character list. -/
def splitOnChar (sep : Char) (s : String) : List String :=
  (s.toList.splitOn sep).map (fun cs => (⟨cs⟩ : String))

/-- Python str.upper(), computed structurally over the character list. -/
def pyToUpper (s : String) : String :=
  ⟨s.toList.map Char.toUpper⟩

/-- settings.TENANTS["kb"]["settings"] from config.py. -/
def kbSettings : CVal := .dict
  [("password_policy", .dict
      [("min_length", .nat 8),
       ("require_special_chars", .bool true)]),
   ("features", .strs ["api_keys", "password_reset", "email_verification"]),
   ("rate_limits", .dict
      [("login_attempts", .nat 5),
       ("api_calls_per_hour", .nat 1000)])]

/-- settings.TENANTS["kb"] from config.py. -/
def kbConfig : CVal := .dict
  [("name", .str "Knowledgebase"),
   ("description", .str "Main KB"),
   ("settings", kbSettings)]

/-- settings.TENANTS: the static tenant configuration map (one tenant). -/
def TENANTS : List (String × CVal) := [("kb", kbConfig)]

def DEFAULT_TENANT : String := "kb"

/-! ## app/core/tenant_manager.py : TenantManager -/

/-- TenantManager.get_tenant_config:
settings.TENANTS.get(tenant_id, settings.TENANTS[settings.DEFAULT_TENANT]). -/
def get_tenant_config (tenant_id : String) : CVal :=
  ((TENANTS.lookup tenant_id).getD ((TENANTS.lookup DEFAULT_TENANT).getD (.dict [])))

/-- The dotted-path walk inside get_tenant_setting:
for key in keys: if isinstance(value, dict) and key in value then descend
else return default. -/
def settingWalk (default : CVal) : List String → CVal → CVal
  | [], v => v
  | k :: ks, .dict d =>
    match d.lookup k with
    | some v => settingWalk default ks v
    | none => default
  | _ :: _, _ => default

/-- TenantManager.get_tenant_setting: walk setting_path.split(".") starting
from config.get("settings", empty dict). -/
def get_tenant_setting (tenant_id setting_path : String) (default : CVal) : CVal :=
  settingWalk default (splitOnChar '.' setting_path)
    ((cvalGet (get_tenant_config tenant_id) "settings").getD (.dict []))

/-- TenantManager.is_feature_enabled: feature in the "features" list
(default empty list). Settings trees only ever store feature lists as
lists of strings; any other shape has no members. -/
def is_feature_enabled (tenant_id feature : String) : Bool :=
  match get_tenant_setting tenant_id "features" (.strs []) with
  | .strs l => l.contains feature
  | _ => false

/-- TenantManager.get_rate_limit: tenant setting "rate_limits.<limit_type>"
with default getattr(settings, limit_type.upper(), 5). -/
def get_rate_limit (tenant_id limit_type : String) : CVal :=
  get_tenant_setting tenant_id ("rate_limits." ++ limit_type)
    (.nat ((settingsIntAttr (pyToUpper limit_type)).getD 5))

/-- Integer view of a configuration value; rate limits and length bounds in
config.py are always ints, so the non-int branches never arise on the
configured tree. -/
def cvalNat : CVal → Nat
  | .nat n => n
  | _ => 0

/-- Boolean view of a configuration value (policy flags are bools). -/
def cvalBool : CVal → Bool
  | .bool b => b
  | _ => false

/-- get_rate_limit read at its call sites, where Python compares it as an
int. -/
def rate_limit_nat (tenant_id limit_type : String) : Nat :=
  cvalNat (get_rate_limit tenant_id limit_type)

/-- The default password policy dict passed by
TenantManager.get_password_policy. -/
def default_password_policy : CVal := .dict
  [("min_length", .nat settings_PASSWORD_MIN_LENGTH),
   ("require_special_chars", .bool false),
   ("require_numbers", .bool false),
   ("require_uppercase", .bool false),
   ("require_2fa", .bool false)]

/-- TenantManager.get_password_policy. -/
def get_password_policy (tenant_id : String) : CVal :=
  get_tenant_setting tenant_id "password_policy" default_password_policy

/-- policy.get(key, default) where the stored value is an int. -/
def dictGetNat (v : CVal) (k : String) (d : Nat) : Nat :=
  match cvalGet v k with
  | some w => cvalNat w
  | none => d

/-- policy.get(key, default) where the stored value is a bool. -/
def dictGetBool (v : CVal) (k : String) (d : Bool) : Bool :=
  match cvalGet v k with
  | some w => cvalBool w
  | none => d

/-! ## app/core/auth.py : AuthService.validate_password_policy -/

/-- The character class of the special-character regex in
validate_password_policy. -/
def specialChars : String := "!@#$%^&*(),.?\":\x7b\x7d|<>"

/-- re.search of the special-character class. -/
def hasSpecial (password : String) : Bool :=
  password.toList.any (fun c => specialChars.toList.contains c)

/-- re.search of the digit class. -/
def hasDigit (password : String) : Bool :=
  password.toList.any Char.isDigit

/-- re.search of the uppercase class [A-Z]. -/
def hasUpper (password : String) : Bool :=
  password.toList.any Char.isUpper

/-- AuthService.validate_password_policy: sequential checks, first failing
rule produces the message. -/
def validate_password_policy (tenant_id password : String) : Bool × String :=
  let policy := get_password_policy tenant_id
  let min_length := dictGetNat policy "min_length" settings_PASSWORD_MIN_LENGTH
  if password.length < min_length then
    (false, "Password must be at least " ++ toString min_length ++ " characters long")
  else if dictGetBool policy "require_special_chars" false && !(hasSpecial password) then
    (false, "Password must contain at least one special character")
  else if dictGetBool policy "require_numbers" false && !(hasDigit password) then
    (false, "Password must contain at least one number")
  else if dictGetBool policy "require_uppercase" false && !(hasUpper password) then
    (false, "Password must contain at least one uppercase letter")
  else
    (true, "Password meets policy requirements")

/-- The minimum length the policy of a tenant imposes (the min_length
binding inside validate_password_policy). -/
def policy_min_length (tenant_id : String) : Nat :=
  dictGetNat (get_password_policy tenant_id) "min_length" settings_PASSWORD_MIN_LENGTH

/-- A boolean policy flag of a tenant (the require_* reads inside
validate_password_policy). -/
def policy_requires (tenant_id flag : String) : Bool :=
  dictGetBool (get_password_policy tenant_id) flag false

/-! ## app/models : the persisted documents (Nat ids, Nat-second datetimes) -/

/-- models/user.py User. -/
structure UserR where
  id : Nat
  tenant_id : String
  email : String
  password_hash : String
  is_active : Bool := true
  is_verified : Bool := false
  failed_login_attempts : Nat := 0
  locked_until : Option Nat := none
  last_login : Option Nat := none
deriving Repr, DecidableEq

/-- models/user.py APIKey. -/
structure APIKeyR where
  id : Nat
  tenant_id : String
  user_id : Nat
  key_hash : String
  name : String := ""
  is_active : Bool := true
  last_used_at : Option Nat := none
  expires_at : Option Nat := none
deriving Repr, DecidableEq

/-- models/token.py TokenType. -/
inductive TokenType where
  | access
  | refresh
  | reset
  | verify
deriving Repr, DecidableEq

/-- models/token.py Token (the persisted reset/verify token). -/
structure TokenR where
  id : Nat
  tenant_id : String
  user_id : Nat
  token_hash : String
  token_type : TokenType
  is_revoked : Bool := false
  expires_at : Nat
deriving Repr, DecidableEq

/-- The document store: one list per collection. -/
structure DB where
  users : List UserR := []
  apiKeys : List APIKeyR := []
  tokens : List TokenR := []
deriving Repr, DecidableEq

/-- beanie document.save() on the users collection: replace the document
with the same id. -/
def saveUser (db : DB) (u : UserR) : DB :=
  { db with users := db.users.map (fun v => if v.id == u.id then u else v) }

/-- beanie document.save() on the api_keys collection. -/
def saveApiKey (db : DB) (a : APIKeyR) : DB :=
  { db with apiKeys := db.apiKeys.map (fun v => if v.id == a.id then a else v) }

/-- beanie document.save() on the tokens collection. -/
def saveToken (db : DB) (t : TokenR) : DB :=
  { db with tokens := db.tokens.map (fun v => if v.id == t.id then t else v) }

/-! ## app/core/security.py : token codec (JWT modeled as a signed record) -/

/-- The decoded JWT claims {sub, tenant_id, exp, type}. sub is optional
because arbitrary presented tokens need not carry it
(payload.get("sub") in get_current_user). -/
structure Payload where
  sub : Option String
  tenant_id : String
  exp : Nat
  typ : String
deriving Repr, DecidableEq

/-- A signed token: the claims plus the key they were signed with.
jwt.encode is modeled as pairing the payload with the signing key;
jwt.decode checks that key against the process key. -/
structure Signed where
  payload : Payload
  key : String
deriving Repr, DecidableEq

/-- The process-wide signing secret (settings.SECRET_KEY). -/
def SECRET_KEY : String := "process-secret"

/-- security.py create_access_token with the default expiry:
exp = now + ACCESS_TOKEN_EXPIRE_MINUTES, type = "access". -/
def create_access_token (sub tenant_id : String) (now : Nat) : Signed :=
  ⟨⟨some sub, tenant_id, now + 60 * settings_ACCESS_TOKEN_EXPIRE_MINUTES, "access"⟩, SECRET_KEY⟩

/-- security.py create_refresh_token:
exp = now + REFRESH_TOKEN_EXPIRE_DAYS, type = "refresh". -/
def create_refresh_token (sub tenant_id : String) (now : Nat) : Signed :=
  ⟨⟨some sub, tenant_id, now + 86400 * settings_REFRESH_TOKEN_EXPIRE_DAYS, "refresh"⟩, SECRET_KEY⟩

/-- security.py verify_token: jwt.decode = signature check plus expiry
check; any failure collapses to none. No claim beyond signature and exp is
inspected. -/
def verify_token (s : Signed) (now : Nat) : Option Payload :=
  if s.key == SECRET_KEY && now < s.payload.exp then some s.payload else none

/-- security.py hash_api_key (SHA-256 hex digest), modeled as an injective
tagging function: the development relies only on determinism and
injectivity of the digest. -/
def hash_api_key (api_key : String) : String :=
  "sha256:" ++ api_key

/-! ## app/core/auth.py : AuthService state and lookups -/

/-- UUID(s): some identifier when s is a decimal numeral, none otherwise
(the ValueError branch of the source), computed structurally over the
character list. -/
def idOfStr (s : String) : Option Nat :=
  let cs := s.toList
  if cs.isEmpty then none
  else if cs.all Char.isDigit then
    some (cs.foldl (fun a c => 10 * a + (c.toNat - 48)) 0)
  else none

/-- AuthService.get_user_by_email: find_one(tenant_id == tid, email == e). -/
def get_user_by_email (users : List UserR) (tenant_id email : String) : Option UserR :=
  users.find? (fun u => u.tenant_id == tenant_id && u.email == email)

/-- AuthService.get_user_by_id: UUID(user_id) parse then
find_one(tenant_id == tid, id == uuid). A failed parse falls back to the
raw string, which never equals a UUID field, hence none. -/
def get_user_by_id (users : List UserR) (tenant_id user_id : String) : Option UserR :=
  match idOfStr user_id with
  | some n => users.find? (fun u => u.tenant_id == tenant_id && u.id == n)
  | none => none

/-- AuthService.is_user_locked: locked_until is set and still in the
future. Pure read, no mutation. -/
def is_user_locked (now : Nat) (u : UserR) : Bool :=
  match u.locked_until with
  | some t => decide (now < t)
  | none => false

/-- AuthService.increment_failed_attempts: bump the counter, read the
tenant limit at the moment of increment, and set
locked_until = now + LOCKOUT_DURATION_MINUTES once the counter reaches the
limit. -/
def increment_failed_attempts (tenant_id : String) (now : Nat) (u : UserR) : UserR :=
  let attempts := u.failed_login_attempts + 1
  let max_attempts := rate_limit_nat tenant_id "login_attempts"
  { u with
    failed_login_attempts := attempts,
    locked_until :=
      if max_attempts ≤ attempts then some (now + 60 * settings_LOCKOUT_DURATION_MINUTES)
      else u.locked_until }

/-- AuthService.reset_failed_attempts: clear the counter and the lock,
stamp last_login. -/
def reset_failed_attempts (now : Nat) (u : UserR) : UserR :=
  { u with failed_login_attempts := 0, locked_until := none, last_login := some now }

/-- The redis blacklist, as the set of (tenant_id, token) pairs currently
stored (redis unavailable is the empty list). -/
abbrev Blacklist := List (String × Signed)

/-- AuthService.is_token_blacklisted: exists("blacklist:tenant:token"). -/
def is_token_blacklisted (bl : Blacklist) (tenant_id : String) (s : Signed) : Bool :=
  bl.contains (tenant_id, s)

/-- AuthService.validate_api_key: feature gate, hash lookup restricted to
(tenant, hash, active), expiry check, last_used_at bookkeeping, then owner
lookup. Returns the resolved user (if any) and the store after the
last_used_at save. -/
def validate_api_key (db : DB) (tenant_id : String) (now : Nat) (api_key : String) :
    Option UserR × DB :=
  if !(is_feature_enabled tenant_id "api_keys") then (none, db)
  else
    let key_hash := hash_api_key api_key
    match db.apiKeys.find? (fun a =>
        a.tenant_id == tenant_id && a.key_hash == key_hash && a.is_active) with
    | none => (none, db)
    | some a =>
      if (match a.expires_at with | some e => decide (e < now) | none => false) then (none, db)
      else
        let db2 := saveApiKey db { a with last_used_at := some now }
        (get_user_by_id db2.users tenant_id (toString a.user_id), db2)

/-! ## app/core/auth.py : get_current_user (bearer authentication) -/

/-- The internal failure kinds of get_current_user (each corresponds to one
HTTPException raise site in core/auth.py, in raise order). -/
inductive AuthError where
  | featureDisabled
  | invalidApiKey
  | tokenRevoked
  | tokenInvalid
  | tenantMismatch
  | invalidPayload
  | userNotFound
  | userInactive
deriving Repr, DecidableEq

/-- The presented bearer credential. The source dispatches on the string
having the "ak_" API-key marker before attempting JWT verification; the
two shapes are modeled as constructors. -/
inductive Credential where
  | apiKey (k : String)
  | bearer (s : Signed)

/-- core/auth.py get_current_user: API-key branch (feature re-check for the
distinct 403), then blacklist, JWT verification, tenant binding, sub
claim, user lookup and active check. Returns the outcome together with
the store (the API-key branch can write last_used_at even when the
request then fails). -/
def get_current_user (db : DB) (bl : Blacklist) (tenant_id : String) (now : Nat)
    (cred : Credential) : Except AuthError UserR × DB :=
  match cred with
  | .apiKey k =>
    match validate_api_key db tenant_id now k with
    | (some u, db2) => (.ok u, db2)
    | (none, db2) =>
      if !(is_feature_enabled tenant_id "api_keys") then (.error .featureDisabled, db2)
      else (.error .invalidApiKey, db2)
  | .bearer s =>
    if is_token_blacklisted bl tenant_id s then (.error .tokenRevoked, db)
    else
      match verify_token s now with
      | none => (.error .tokenInvalid, db)
      | some p =>
        if p.tenant_id ≠ tenant_id then (.error .tenantMismatch, db)
        else
          match p.sub with
          | none => (.error .invalidPayload, db)
          | some uid =>
            match get_user_by_id db.users tenant_id uid with
            | none => (.error .userNotFound, db)
            | some u =>
              if !u.is_active then (.error .userInactive, db)
              else (.ok u, db)

/-! ## app/api/auth.py : login -/

/-- The HTTPException outcomes of the login endpoint. -/
inductive LoginError where
  | invalidCredentials
  | accountLocked
  | accountInactive
deriving Repr, DecidableEq

/-- The TokenResponse pair issued on a successful login. -/
structure TokenPair where
  access : Signed
  refresh : Signed
deriving Repr, DecidableEq

/-- api/auth.py login: user lookup, lock check, password verification
(bcrypt passed in as verifyp), failed-attempt recording, active check,
success recording and token issuance with tenant_id in both payloads. -/
def login (db : DB) (tenant_id : String) (now : Nat) (email password : String)
    (verifyp : String → String → Bool) : Except LoginError TokenPair × DB :=
  match get_user_by_email db.users tenant_id email with
  | none => (.error .invalidCredentials, db)
  | some u =>
    if is_user_locked now u then (.error .accountLocked, db)
    else if !(verifyp password u.password_hash) then
      (.error .invalidCredentials, saveUser db (increment_failed_attempts tenant_id now u))
    else if !u.is_active then (.error .accountInactive, db)
    else
      (.ok ⟨create_access_token (toString u.id) tenant_id now,
            create_refresh_token (toString u.id) tenant_id now⟩,
       saveUser db (reset_failed_attempts now u))

/-! ## app/api/auth.py : register -/

/-- The HTTPException outcomes of the register endpoint. -/
inductive RegisterError where
  | emailTaken
  | policyViolation (msg : String)
deriving Repr, DecidableEq

/-- api/auth.py register: duplicate-email check, full tenant password
policy, then insert of the new user (is_verified = true, the other fields
at their model defaults). newId stands for the generated UUID. -/
def register (db : DB) (tenant_id : String) (email password : String)
    (hashp : String → String) (newId : Nat) : Except RegisterError UserR × DB :=
  match get_user_by_email db.users tenant_id email with
  | some _ => (.error .emailTaken, db)
  | none =>
    match validate_password_policy tenant_id password with
    | (false, msg) => (.error (.policyViolation msg), db)
    | (true, _) =>
      let u : UserR :=
        { id := newId, tenant_id := tenant_id, email := email,
          password_hash := hashp password, is_verified := true }
      (.ok u, { db with users := db.users ++ [u] })

/-! ## app/api/auth.py : reset_password -/

/-- The HTTPException outcomes of the reset-password endpoint. -/
inductive ResetError where
  | resetTokenInvalid
  | userNotFound
  | policyViolation (msg : String)
deriving Repr, DecidableEq

/-- The find_one of reset_password: an unrevoked, unexpired token matching
(tenant, token value, type = reset). -/
def find_reset_token (db : DB) (tenant_id : String) (now : Nat) (tokenVal : String) :
    Option TokenR :=
  db.tokens.find? (fun t =>
    t.tenant_id == tenant_id && t.token_hash == tokenVal &&
    t.token_type == TokenType.reset && t.is_revoked == false &&
    decide (now < t.expires_at))

/-- api/auth.py reset_password: token lookup, user lookup, full tenant
password policy, then user.save() with the new hash followed by
token.save() with is_revoked = true (two separate unconditioned writes). -/
def reset_password (db : DB) (tenant_id : String) (now : Nat) (tokenVal new_password : String)
    (hashp : String → String) : Except ResetError Unit × DB :=
  match find_reset_token db tenant_id now tokenVal with
  | none => (.error .resetTokenInvalid, db)
  | some t =>
    match get_user_by_id db.users tenant_id (toString t.user_id) with
    | none => (.error .userNotFound, db)
    | some u =>
      match validate_password_policy tenant_id new_password with
      | (false, msg) => (.error (.policyViolation msg), db)
      | (true, _) =>
        let db1 := saveUser db { u with password_hash := hashp new_password }
        let db2 := saveToken db1 { t with is_revoked := true }
        (.ok (), db2)

/-- The read phase of reset_password: everything up to (and excluding) the
first write. Both database reads and the pure policy check happen before
any save; the handler suspends at each await without holds on the store,
so a second in-flight completion can run its read phase against the same
store state. -/
def reset_read (db : DB) (tenant_id : String) (now : Nat) (tokenVal new_password : String) :
    Option (TokenR × UserR) :=
  match find_reset_token db tenant_id now tokenVal with
  | none => none
  | some t =>
    match get_user_by_id db.users tenant_id (toString t.user_id) with
    | none => none
    | some u =>
      if (validate_password_policy tenant_id new_password).1 then some (t, u) else none

/-- The write phase of reset_password: user.save() with the new hash, then
token.save() with is_revoked = true. -/
def reset_write (db : DB) (t : TokenR) (u : UserR) (new_password : String)
    (hashp : String → String) : DB :=
  saveToken (saveUser db { u with password_hash := hashp new_password }) { t with is_revoked := true }

/-- Two concurrent reset completions under the lost-update interleaving:
both requests run their read phase against the same store state before
either write lands (the awaits in the handler permit exactly this
schedule). Returns whether each request reported success, and the final
store. -/
def racy_double_reset (db : DB) (tenant_id : String) (now : Nat)
    (tokenVal pw1 pw2 : String) (hashp : String → String) : Bool × Bool × DB :=
  match reset_read db tenant_id now tokenVal pw1, reset_read db tenant_id now tokenVal pw2 with
  | some (t1, u1), some (t2, u2) =>
    (true, true, reset_write (reset_write db t1 u1 pw1 hashp) t2 u2 pw2 hashp)
  | some (t1, u1), none => (true, false, reset_write db t1 u1 pw1 hashp)
  | none, some (t2, u2) => (false, true, reset_write db t2 u2 pw2 hashp)
  | none, none => (false, false, db)

/-! ## app/api/users.py : change_password -/

/-- The HTTPException outcomes of the change-password endpoint. -/
inductive ChangePwError where
  | wrongCurrentPassword
  | tooShort
deriving Repr, DecidableEq

/-- api/users.py change_password: verify the current password, then check
only len(new_password) against the system-wide settings.PASSWORD_MIN_LENGTH
(no tenant policy), then store the new hash. -/
def change_password (u : UserR) (current_password new_password : String)
    (verifyp : String → String → Bool) (hashp : String → String) :
    Except ChangePwError UserR :=
  if !(verifyp current_password u.password_hash) then .error .wrongCurrentPassword
  else if new_password.length < settings_PASSWORD_MIN_LENGTH then .error .tooShort
  else .ok { u with password_hash := hashp new_password }

/-! ## Consecutive failed logins (the AccountGuard fold used by C2) -/

/-- A run of consecutive recorded failures at the given times. -/
def applyFailures (tenant_id : String) (ts : List Nat) (u : UserR) : UserR :=
  ts.foldl (fun v t => increment_failed_attempts tenant_id t v) u

/-! ## Mock collaborators for concrete witnesses -/

/-- Mock bcrypt hash: tag the plaintext. -/
def hashMock (p : String) : String := "h:" ++ p

/-- Mock bcrypt verification consistent with hashMock. -/
def verifyMock (p h : String) : Bool := h == "h:" ++ p

/-! ## Configuration lemmas -/

/-- Every tenant id resolves to the kb configuration: the only configured
tenant is "kb" and the absent case falls back to
TENANTS[DEFAULT_TENANT] = TENANTS["kb"]. -/
lemma get_tenant_config_eq (tenant_id : String) : get_tenant_config tenant_id = kbConfig := by
  by_cases h : tenant_id = "kb"
  · subst h; rfl
  · have hb : (tenant_id == "kb") = false := by simp [h]
    simp [get_tenant_config, TENANTS, DEFAULT_TENANT, List.lookup, hb]

lemma get_tenant_setting_eq (tenant_id setting_path : String) (d : CVal) :
    get_tenant_setting tenant_id setting_path d
      = settingWalk d (splitOnChar '.' setting_path) kbSettings := by
  unfold get_tenant_setting
  rw [get_tenant_config_eq]
  rfl

/-- The effective login-attempts limit of every tenant is 5. -/
lemma rate_limit_login_eq (tenant_id : String) :
    rate_limit_nat tenant_id "login_attempts" = 5 := by
  unfold rate_limit_nat get_rate_limit
  rw [get_tenant_setting_eq]
  rfl

lemma get_password_policy_eq (tenant_id : String) :
    get_password_policy tenant_id
      = .dict [("min_length", .nat 8), ("require_special_chars", .bool true)] := by
  unfold get_password_policy
  rw [get_tenant_setting_eq]
  rfl

/-! ## Lockout-fold lemmas -/

lemma increment_count (tenant_id : String) (now : Nat) (u : UserR) :
    (increment_failed_attempts tenant_id now u).failed_login_attempts
      = u.failed_login_attempts + 1 := rfl

lemma increment_locked_set (tenant_id : String) (now : Nat) (u : UserR)
    (h : rate_limit_nat tenant_id "login_attempts" ≤ u.failed_login_attempts + 1) :
    (increment_failed_attempts tenant_id now u).locked_until
      = some (now + 60 * settings_LOCKOUT_DURATION_MINUTES) := by
  simp [increment_failed_attempts, h]

lemma applyFailures_nil (tenant_id : String) (u : UserR) :
    applyFailures tenant_id [] u = u := rfl

lemma applyFailures_cons (tenant_id : String) (t : Nat) (ts : List Nat) (u : UserR) :
    applyFailures tenant_id (t :: ts) u
      = applyFailures tenant_id ts (increment_failed_attempts tenant_id t u) := rfl

lemma applyFailures_append (tenant_id : String) (l1 l2 : List Nat) (u : UserR) :
    applyFailures tenant_id (l1 ++ l2) u
      = applyFailures tenant_id l2 (applyFailures tenant_id l1 u) := by
  simp [applyFailures, List.foldl_append]

lemma applyFailures_count (tenant_id : String) (ts : List Nat) (u : UserR) :
    (applyFailures tenant_id ts u).failed_login_attempts
      = u.failed_login_attempts + ts.length := by
  induction ts generalizing u with
  | nil => rfl
  | cons t ts ih =>
    rw [applyFailures_cons, ih, increment_count]
    simp
    omega

/-- A run of failures whose last increment pushes the counter to (or past)
the limit stamps the lock from the time of that last increment. -/
lemma applyFailures_locked_of_ge (tenant_id : String) (ts : List Nat) (tl : Nat) (u : UserR)
    (h : rate_limit_nat tenant_id "login_attempts" ≤ u.failed_login_attempts + ts.length + 1) :
    (applyFailures tenant_id (ts ++ [tl]) u).locked_until
      = some (tl + 60 * settings_LOCKOUT_DURATION_MINUTES) := by
  rw [applyFailures_append, applyFailures_cons, applyFailures_nil]
  apply increment_locked_set
  rw [applyFailures_count]
  omega

/-! ## Claim theorems -/

/-- C7: validate_password_policy checks rules sequentially — minimum length
first, then (if required) a special character, then the digit requirement,
then the uppercase requirement — and returns the message of the first
violated rule only; on the kb policy (min_length 8, special chars
required), "short1!" fails with the length message, "longenough1" with the
special-character message, and "longenough!1" passes. -/
theorem C7_policy_order (tenant_id password : String) :
    (password.length < policy_min_length tenant_id →
      validate_password_policy tenant_id password =
        (false, "Password must be at least " ++ toString (policy_min_length tenant_id) ++
          " characters long")) ∧
    (policy_min_length tenant_id ≤ password.length →
      policy_requires tenant_id "require_special_chars" = true →
      hasSpecial password = false →
      validate_password_policy tenant_id password =
        (false, "Password must contain at least one special character")) ∧
    (policy_min_length tenant_id ≤ password.length →
      (policy_requires tenant_id "require_special_chars" = true → hasSpecial password = true) →
      policy_requires tenant_id "require_numbers" = true →
      hasDigit password = false →
      validate_password_policy tenant_id password =
        (false, "Password must contain at least one number")) ∧
    (policy_min_length tenant_id ≤ password.length →
      (policy_requires tenant_id "require_special_chars" = true → hasSpecial password = true) →
      (policy_requires tenant_id "require_numbers" = true → hasDigit password = true) →
      policy_requires tenant_id "require_uppercase" = true →
      hasUpper password = false →
      validate_password_policy tenant_id password =
        (false, "Password must contain at least one uppercase letter")) ∧
    (policy_min_length tenant_id ≤ password.length →
      (policy_requires tenant_id "require_special_chars" = true → hasSpecial password = true) →
      (policy_requires tenant_id "require_numbers" = true → hasDigit password = true) →
      (policy_requires tenant_id "require_uppercase" = true → hasUpper password = true) →
      validate_password_policy tenant_id password = (true, "Password meets policy requirements")) ∧
    validate_password_policy "kb" "short1!" =
      (false, "Password must be at least 8 characters long") ∧
    validate_password_policy "kb" "longenough1" =
      (false, "Password must contain at least one special character") ∧
    (validate_password_policy "kb" "longenough!1").1 = true := by
  refine ⟨?_, ?_, ?_, ?_, ?_, rfl, rfl, rfl⟩
  · intro h1
    simp only [validate_password_policy, policy_min_length] at *
    rw [if_pos h1]
  · intro h1 h2 h3
    simp only [validate_password_policy, policy_min_length, policy_requires] at *
    rw [if_neg (by omega), h2, h3]
    rfl
  · intro h1 h2 h3 h4
    simp only [validate_password_policy, policy_min_length, policy_requires] at *
    rw [if_neg (by omega), h3, h4]
    rcases hs : dictGetBool (get_password_policy tenant_id) "require_special_chars" false with _ | _
    · rfl
    · rw [h2 hs]; rfl
  · intro h1 h2 h3 h4 h5
    simp only [validate_password_policy, policy_min_length, policy_requires] at *
    rw [if_neg (by omega), h4, h5]
    rcases hs : dictGetBool (get_password_policy tenant_id) "require_special_chars" false with _ | _
    · rcases hn : dictGetBool (get_password_policy tenant_id) "require_numbers" false with _ | _
      · rfl
      · rw [h3 hn]; rfl
    · rw [h2 hs]
      rcases hn : dictGetBool (get_password_policy tenant_id) "require_numbers" false with _ | _
      · rfl
      · rw [h3 hn]; rfl
  · intro h1 h2 h3 h4
    simp only [validate_password_policy, policy_min_length, policy_requires] at *
    rw [if_neg (by omega)]
    rcases hs : dictGetBool (get_password_policy tenant_id) "require_special_chars" false with _ | _
    · rcases hn : dictGetBool (get_password_policy tenant_id) "require_numbers" false with _ | _
      · rcases hu : dictGetBool (get_password_policy tenant_id) "require_uppercase" false with _ | _
        · rfl
        · rw [h4 hu]; rfl
      · rw [h3 hn]
        rcases hu : dictGetBool (get_password_policy tenant_id) "require_uppercase" false with _ | _
        · rfl
        · rw [h4 hu]; rfl
    · rw [h2 hs]
      rcases hn : dictGetBool (get_password_policy tenant_id) "require_numbers" false with _ | _
      · rcases hu : dictGetBool (get_password_policy tenant_id) "require_uppercase" false with _ | _
        · rfl
        · rw [h4 hu]; rfl
      · rw [h3 hn]
        rcases hu : dictGetBool (get_password_policy tenant_id) "require_uppercase" false with _ | _
        · rfl
        · rw [h4 hu]; rfl

/-- C7 witness: the policy evaluated at the kb tenant and "short1!" through
the length conjunct of C7_policy_order. -/
theorem C7_policy_order_witness :
    validate_password_policy "kb" "short1!" =
      (false, "Password must be at least " ++ toString (policy_min_length "kb") ++
        " characters long") :=
  (C7_policy_order "kb" "short1!").1 (by decide)

/-- C10: a tenant id absent from the static configuration map resolves to
the DEFAULT_TENANT ("kb") configuration, so policy, feature and rate-limit
lookups yield the kb-configured values (for instance a special-character
requirement the system-wide default policy does not impose), not
system-wide defaults. -/
theorem C10_default_tenant_fallback (tenant_id : String)
    (h : TENANTS.lookup tenant_id = none) :
    get_tenant_config tenant_id = kbConfig ∧
    get_password_policy tenant_id
      = .dict [("min_length", .nat 8), ("require_special_chars", .bool true)] ∧
    policy_requires tenant_id "require_special_chars" = true ∧
    dictGetBool default_password_policy "require_special_chars" false = false ∧
    is_feature_enabled tenant_id "api_keys" = true ∧
    is_feature_enabled tenant_id "password_reset" = true ∧
    rate_limit_nat tenant_id "login_attempts" = 5 := by
  refine ⟨get_tenant_config_eq tenant_id, get_password_policy_eq tenant_id, ?_, rfl, ?_, ?_,
    rate_limit_login_eq tenant_id⟩
  · unfold policy_requires
    rw [get_password_policy_eq]
    rfl
  · unfold is_feature_enabled
    rw [get_tenant_setting_eq]
    rfl
  · unfold is_feature_enabled
    rw [get_tenant_setting_eq]
    rfl

/-- C10 witness: the fallback at the concrete unknown tenant id
"no-such-tenant". -/
theorem C10_default_tenant_fallback_witness :
    get_tenant_config "no-such-tenant" = kbConfig ∧
    is_feature_enabled "no-such-tenant" "api_keys" = true :=
  ⟨(C10_default_tenant_fallback "no-such-tenant" rfl).1,
   (C10_default_tenant_fallback "no-such-tenant" rfl).2.2.2.2.1⟩

/-- C2: for any tenant, a user starting with a zero counter and no lock is
locked after exactly limit consecutive recorded failures (limit is the
tenant-configured login_attempts rate limit, whose effective value is 5),
the lock persists through the lockout window under any further recorded
failures, and reset_failed_attempts always clears counter and lock and
stamps last_login, regardless of prior state. -/
theorem C2_lockout_threshold (tenant_id : String) (ts : List Nat) (tl : Nat) (u0 : UserR)
    (h0 : u0.failed_login_attempts = 0)
    (h0lock : u0.locked_until = none)
    (hlen : (ts ++ [tl]).length = rate_limit_nat tenant_id "login_attempts") :
    rate_limit_nat tenant_id "login_attempts" = 5 ∧
    (applyFailures tenant_id (ts ++ [tl]) u0).locked_until
      = some (tl + 60 * settings_LOCKOUT_DURATION_MINUTES) ∧
    (∀ now, now < tl + 60 * settings_LOCKOUT_DURATION_MINUTES →
      is_user_locked now (applyFailures tenant_id (ts ++ [tl]) u0) = true) ∧
    (∀ ts2 now, (∀ t ∈ ts2, tl ≤ t) →
      now < tl + 60 * settings_LOCKOUT_DURATION_MINUTES →
      is_user_locked now
        (applyFailures tenant_id ts2 (applyFailures tenant_id (ts ++ [tl]) u0)) = true) ∧
    (∀ (u : UserR) (now : Nat),
      (reset_failed_attempts now u).failed_login_attempts = 0 ∧
      (reset_failed_attempts now u).locked_until = none ∧
      (reset_failed_attempts now u).last_login = some now ∧
      (∀ m, is_user_locked m (reset_failed_attempts now u) = false)) := by
  have h5 := rate_limit_login_eq tenant_id
  simp only [List.length_append, List.length_cons, List.length_nil] at hlen
  have hlock : (applyFailures tenant_id (ts ++ [tl]) u0).locked_until
      = some (tl + 60 * settings_LOCKOUT_DURATION_MINUTES) := by
    apply applyFailures_locked_of_ge
    omega
  refine ⟨h5, hlock, ?_, ?_, ?_⟩
  · intro now hnow
    simp [is_user_locked, hlock, hnow]
  · intro ts2 now hts hnow
    rcases List.eq_nil_or_concat ts2 with h2 | ⟨l2, b, rfl⟩
    · subst h2
      rw [applyFailures_nil]
      simp [is_user_locked, hlock, hnow]
    · simp only [List.concat_eq_append] at hts ⊢
      have hb : tl ≤ b := hts b (by simp)
      have hl2 : (applyFailures tenant_id (l2 ++ [b])
            (applyFailures tenant_id (ts ++ [tl]) u0)).locked_until
          = some (b + 60 * settings_LOCKOUT_DURATION_MINUTES) := by
        apply applyFailures_locked_of_ge
        simp [applyFailures_count]
        omega
      simp only [is_user_locked, hl2]
      simp
      omega
  · intro u now
    refine ⟨rfl, rfl, rfl, fun m => ?_⟩
    simp [is_user_locked, reset_failed_attempts]

/-- C2 witness: the kb user locked by its fifth consecutive failure,
recorded at times 1..5. -/
theorem C2_lockout_threshold_witness :
    (applyFailures "kb" ([1, 2, 3, 4] ++ [5])
        { id := 1, tenant_id := "kb", email := "a@x.com", password_hash := "h:pw" }).locked_until
      = some (5 + 60 * settings_LOCKOUT_DURATION_MINUTES) :=
  (C2_lockout_threshold "kb" [1, 2, 3, 4] 5
    { id := 1, tenant_id := "kb", email := "a@x.com", password_hash := "h:pw" }
    rfl rfl (by rw [rate_limit_login_eq]; rfl)).2.1

/-- C8: when a lockout has expired (locked_until in the past) but the
failed-login counter still meets the limit, the user reads as unlocked,
and a single further recorded failure sets a fresh lock at
now + lockout_duration while bumping the counter; the counter is never
zeroed by a recorded failure, only reset_failed_attempts zeroes it. -/
theorem C8_expired_lock_counter_persists (tenant_id : String) (u : UserR) (now t0 : Nat)
    (hlock : u.locked_until = some t0) (hpassed : t0 ≤ now)
    (hcnt : rate_limit_nat tenant_id "login_attempts" ≤ u.failed_login_attempts) :
    is_user_locked now u = false ∧
    (increment_failed_attempts tenant_id now u).failed_login_attempts
      = u.failed_login_attempts + 1 ∧
    (increment_failed_attempts tenant_id now u).locked_until
      = some (now + 60 * settings_LOCKOUT_DURATION_MINUTES) ∧
    (∀ m, m < now + 60 * settings_LOCKOUT_DURATION_MINUTES →
      is_user_locked m (increment_failed_attempts tenant_id now u) = true) ∧
    (∀ (v : UserR) (m : Nat),
      (increment_failed_attempts tenant_id m v).failed_login_attempts ≠ 0) ∧
    (∀ (v : UserR) (m : Nat), (reset_failed_attempts m v).failed_login_attempts = 0) := by
  have hset : (increment_failed_attempts tenant_id now u).locked_until
      = some (now + 60 * settings_LOCKOUT_DURATION_MINUTES) :=
    increment_locked_set tenant_id now u (by omega)
  refine ⟨?_, rfl, hset, ?_, ?_, fun v m => rfl⟩
  · simp [is_user_locked, hlock]
    omega
  · intro m hm
    simp [is_user_locked, hset, hm]
  · intro v m
    rw [increment_count]
    omega

/-- C8 witness: a kb user with counter 5 and an expired lock (locked until
3, observed at time 10) is relocked until 10 + lockout duration by one
further failure. -/
theorem C8_expired_lock_counter_persists_witness :
    (increment_failed_attempts "kb" 10
        { id := 1, tenant_id := "kb", email := "a@x.com", password_hash := "h:pw",
          failed_login_attempts := 5, locked_until := some 3 }).locked_until
      = some (10 + 60 * settings_LOCKOUT_DURATION_MINUTES) :=
  (C8_expired_lock_counter_persists "kb"
    { id := 1, tenant_id := "kb", email := "a@x.com", password_hash := "h:pw",
      failed_login_attempts := 5, locked_until := some 3 }
    10 3 rfl (by omega) (by rw [rate_limit_login_eq])).2.2.1

/-- C1: password login performs exactly this sequence of checks: absent
user fails generically (for every password and every verifier, so no
enumeration); a locked user fails distinctly with the locked error before
any password verification (the outcome and store are the same for every
verifier) and records no failure; a mismatching password records a failed
attempt and fails generically; a matching password on an inactive account
fails distinctly with the inactive error; and a matching password on an
active unlocked account records success and returns access and refresh
tokens whose payloads carry the request tenant id. -/
theorem C1_login_sequence (db : DB) (tenant_id : String) (now : Nat) (email : String) :
    (get_user_by_email db.users tenant_id email = none →
      ∀ (password : String) (verifyp : String → String → Bool),
        login db tenant_id now email password verifyp = (.error .invalidCredentials, db)) ∧
    (∀ u, get_user_by_email db.users tenant_id email = some u →
      is_user_locked now u = true →
      ∀ (password : String) (verifyp : String → String → Bool),
        login db tenant_id now email password verifyp = (.error .accountLocked, db)) ∧
    (∀ u (password : String) (verifyp : String → String → Bool),
      get_user_by_email db.users tenant_id email = some u →
      is_user_locked now u = false →
      verifyp password u.password_hash = false →
      login db tenant_id now email password verifyp =
        (.error .invalidCredentials, saveUser db (increment_failed_attempts tenant_id now u))) ∧
    (∀ u (password : String) (verifyp : String → String → Bool),
      get_user_by_email db.users tenant_id email = some u →
      is_user_locked now u = false →
      verifyp password u.password_hash = true →
      u.is_active = false →
      login db tenant_id now email password verifyp = (.error .accountInactive, db)) ∧
    (∀ u (password : String) (verifyp : String → String → Bool),
      get_user_by_email db.users tenant_id email = some u →
      is_user_locked now u = false →
      verifyp password u.password_hash = true →
      u.is_active = true →
      login db tenant_id now email password verifyp =
        (.ok ⟨create_access_token (toString u.id) tenant_id now,
              create_refresh_token (toString u.id) tenant_id now⟩,
         saveUser db (reset_failed_attempts now u)) ∧
      (create_access_token (toString u.id) tenant_id now).payload.tenant_id = tenant_id ∧
      (create_refresh_token (toString u.id) tenant_id now).payload.tenant_id = tenant_id) := by
  refine ⟨?_, ?_, ?_, ?_, ?_⟩
  · intro h password verifyp
    simp [login, h]
  · intro u h hlk password verifyp
    simp [login, h, hlk]
  · intro u password verifyp h hlk hv
    simp [login, h, hlk, hv]
  · intro u password verifyp h hlk hv hact
    simp [login, h, hlk, hv, hact]
  · intro u password verifyp h hlk hv hact
    refine ⟨?_, rfl, rfl⟩
    simp [login, h, hlk, hv, hact]

/-- C1 witness: the success branch of C1_login_sequence at a concrete
store with one active unlocked kb user and the matching password. -/
theorem C1_login_sequence_witness :
    login { users := [{ id := 1, tenant_id := "kb", email := "a@x.com",
                        password_hash := "h:Abc12345!" }] }
        "kb" 100 "a@x.com" "Abc12345!" verifyMock
      = (.ok ⟨create_access_token "1" "kb" 100, create_refresh_token "1" "kb" 100⟩,
         saveUser
           { users := [{ id := 1, tenant_id := "kb", email := "a@x.com",
                         password_hash := "h:Abc12345!" }] }
           (reset_failed_attempts 100
             { id := 1, tenant_id := "kb", email := "a@x.com",
               password_hash := "h:Abc12345!" })) :=
  ((C1_login_sequence
      { users := [{ id := 1, tenant_id := "kb", email := "a@x.com",
                    password_hash := "h:Abc12345!" }] }
      "kb" 100 "a@x.com").2.2.2.2
    { id := 1, tenant_id := "kb", email := "a@x.com", password_hash := "h:Abc12345!" }
    "Abc12345!" verifyMock rfl rfl rfl rfl).1

/-- C4: a correctly signed, unexpired, unrevoked token whose embedded
tenant_id is not the request tenant is rejected with the tenant-mismatch
failure (a TokenInvalid in the external taxonomy), and bearer
authentication can only succeed when the embedded tenant_id equals the
request tenant id. -/
theorem C4_tenant_binding (db : DB) (bl : Blacklist) (s : Signed) (tenantB : String) (now : Nat)
    (hsig : s.key = SECRET_KEY) (hexp : now < s.payload.exp)
    (hbl : is_token_blacklisted bl tenantB s = false)
    (hne : s.payload.tenant_id ≠ tenantB) :
    (get_current_user db bl tenantB now (.bearer s)).1 = .error .tenantMismatch ∧
    (∀ (db2 : DB) (bl2 : Blacklist) (tid2 : String) (now2 : Nat) (s2 : Signed) (u : UserR),
      (get_current_user db2 bl2 tid2 now2 (.bearer s2)).1 = .ok u →
      s2.payload.tenant_id = tid2) := by
  constructor
  · simp [get_current_user, hbl, verify_token, hsig, hexp, hne]
  · intro db2 bl2 tid2 now2 s2 u h
    simp only [get_current_user] at h
    split at h
    · simp at h
    · split at h
      · simp at h
      · next p heq =>
        split at h
        · simp at h
        · next hten =>
          have hp : p = s2.payload := by
            unfold verify_token at heq
            split at heq
            · exact (Option.some_injective _ heq).symm
            · exact absurd heq (by simp)
          rw [← hp]
          exact not_ne_iff.mp hten

/-- C4 witness: an access token minted for tenant kb presented under the
tenant id "other". -/
theorem C4_tenant_binding_witness :
    (get_current_user { users := [] } [] "other" 10
        (.bearer (create_access_token "1" "kb" 0))).1 = .error .tenantMismatch :=
  (C4_tenant_binding { users := [] } [] (create_access_token "1" "kb" 0) "other" 10
    rfl (by decide) rfl (by decide)).1

/-- C9: change_password validates the new password only against the
system-wide minimum length — any new password at least that long is
accepted when the current password verifies, independent of the tenant
policy — whereas register and reset_password enforce the full tenant
policy and fail with its violation message; concretely, "longenough1"
meets the system minimum but fails the kb tenant policy. -/
theorem C9_change_password_min_length_only :
    (∀ (u : UserR) (cur newPw : String) (verifyp : String → String → Bool)
        (hashp : String → String),
      verifyp cur u.password_hash = true →
      settings_PASSWORD_MIN_LENGTH ≤ newPw.length →
      change_password u cur newPw verifyp hashp = .ok { u with password_hash := hashp newPw }) ∧
    (∀ (db : DB) (tenant_id email pw : String) (hashp : String → String) (newId : Nat),
      get_user_by_email db.users tenant_id email = none →
      (validate_password_policy tenant_id pw).1 = false →
      register db tenant_id email pw hashp newId =
        (.error (.policyViolation (validate_password_policy tenant_id pw).2), db)) ∧
    (∀ (db : DB) (tenant_id : String) (now : Nat) (v pw : String) (hashp : String → String)
        (t : TokenR) (u : UserR),
      find_reset_token db tenant_id now v = some t →
      get_user_by_id db.users tenant_id (toString t.user_id) = some u →
      (validate_password_policy tenant_id pw).1 = false →
      (reset_password db tenant_id now v pw hashp) =
        (.error (.policyViolation (validate_password_policy tenant_id pw).2), db)) ∧
    ((validate_password_policy "kb" "longenough1").1 = false ∧
      settings_PASSWORD_MIN_LENGTH ≤ "longenough1".length) := by
  refine ⟨?_, ?_, ?_, rfl, by decide⟩
  · intro u cur newPw verifyp hashp hv hlen
    simp [change_password, hv]
    omega
  · intro db tenant_id email pw hashp newId h1 hpol
    rcases hv : validate_password_policy tenant_id pw with ⟨b, m⟩
    rw [hv] at hpol
    simp at hpol
    subst hpol
    simp [register, h1, hv]
  · intro db tenant_id now v pw hashp t u ht hu hpol
    rcases hv : validate_password_policy tenant_id pw with ⟨b, m⟩
    rw [hv] at hpol
    simp at hpol
    subst hpol
    simp [reset_password, ht, hu, hv]

/-- C9 witness: the change-password acceptance conjunct at a concrete user
and the policy-violating but long-enough password "longenough1". -/
theorem C9_change_password_min_length_only_witness :
    change_password
        { id := 1, tenant_id := "kb", email := "a@x.com", password_hash := "h:Old1!aaa" }
        "Old1!aaa" "longenough1" verifyMock hashMock
      = .ok { id := 1, tenant_id := "kb", email := "a@x.com",
              password_hash := hashMock "longenough1" } :=
  C9_change_password_min_length_only.1
    { id := 1, tenant_id := "kb", email := "a@x.com", password_hash := "h:Old1!aaa" }
    "Old1!aaa" "longenough1" verifyMock hashMock rfl (by decide)

/-- reset_password is exactly its read phase followed by its write phase:
when the reads succeed, the endpoint performs the two saves of
reset_write. This ties the interleaved two-request model to the
endpoint code. -/
lemma reset_password_read_write (db : DB) (tenant_id : String) (now : Nat)
    (v pw : String) (hashp : String → String) (t : TokenR) (u : UserR)
    (h : reset_read db tenant_id now v pw = some (t, u)) :
    reset_password db tenant_id now v pw hashp = (.ok (), reset_write db t u pw hashp) := by
  unfold reset_read at h
  rcases ht : find_reset_token db tenant_id now v with _ | t0
  · rw [ht] at h
    exact absurd h (by simp)
  · rw [ht] at h
    dsimp only at h
    rcases hu : get_user_by_id db.users tenant_id (toString t0.user_id) with _ | u0
    · rw [hu] at h
      exact absurd h (by simp)
    · rw [hu] at h
      dsimp only at h
      rcases hp : validate_password_policy tenant_id pw with ⟨b, m⟩
      rw [hp] at h
      cases b
      · simp at h
      · simp at h
        obtain ⟨h1, h2⟩ := h
        subst h1
        subst h2
        unfold reset_password reset_write
        rw [ht]
        dsimp only
        rw [hu]
        dsimp only
        rw [hp]

/-- The user and unexpired reset token used in the C3 race evaluation. -/
def uReset : UserR :=
  { id := 1, tenant_id := "kb", email := "a@x.com", password_hash := "h:Old1!aaa" }

def tReset : TokenR :=
  { id := 9, tenant_id := "kb", user_id := 1, token_hash := "rtok",
    token_type := .reset, expires_at := 1000 }

def dbReset : DB := { users := [uReset], tokens := [tReset] }

/-- C3: sequentially, the reset token is single-use — after one successful
completion the second attempt with the same token value and tenant fails
with the invalid-reset-token error and changes nothing — but the
revocation is not atomic with the password update: under the lost-update
interleaving in which both in-flight completions read the token store
before either write lands (the handler awaits permit this schedule), both
completions succeed and the second one overwrites the password hash, so
the same reset token authenticates two resets. -/
theorem C3_reset_token_race :
    (reset_password dbReset "kb" 10 "rtok" "Newpass1!" hashMock).1 = .ok () ∧
    (reset_password (reset_password dbReset "kb" 10 "rtok" "Newpass1!" hashMock).2
        "kb" 20 "rtok" "Second2!a" hashMock).1 = .error .resetTokenInvalid ∧
    (reset_password (reset_password dbReset "kb" 10 "rtok" "Newpass1!" hashMock).2
        "kb" 20 "rtok" "Second2!a" hashMock).2
      = (reset_password dbReset "kb" 10 "rtok" "Newpass1!" hashMock).2 ∧
    racy_double_reset dbReset "kb" 10 "rtok" "Newpass1!" "Attack2!a" hashMock
      = (true, true,
         { users := [{ uReset with password_hash := hashMock "Attack2!a" }],
           tokens := [{ tReset with is_revoked := true }] }) :=
  ⟨rfl, rfl, rfl, rfl⟩

/-- The active kb user of the C5 evaluation. -/
def uActive : UserR :=
  { id := 1, tenant_id := "kb", email := "a@x.com", password_hash := "h:Abc12345!" }

/-- C5: a correctly signed, unexpired refresh token (type tag "refresh")
bound to the request tenant is accepted by bearer authentication — the
type tag is never inspected — contradicting the requirement that only
access tokens authenticate access-protected operations. -/
theorem C5_refresh_token_accepted_as_bearer :
    (create_refresh_token "1" "kb" 0).payload.typ = "refresh" ∧
    verify_token (create_refresh_token "1" "kb" 0) 10
      = some (create_refresh_token "1" "kb" 0).payload ∧
    (get_current_user { users := [uActive] } [] "kb" 10
        (.bearer (create_refresh_token "1" "kb" 0))).1 = .ok uActive :=
  ⟨rfl, rfl, rfl⟩

/-- The inactive kb user and the active unexpired API key owned by that
user, used in the C6 evaluation. -/
def uInactive : UserR :=
  { id := 2, tenant_id := "kb", email := "b@x.com", password_hash := "h:pw",
    is_active := false }

def keyOfInactive : APIKeyR :=
  { id := 7, tenant_id := "kb", user_id := 2, key_hash := hash_api_key "ak_secret" }

def dbApiKey : DB := { users := [uInactive], apiKeys := [keyOfInactive] }

/-- C6: an active, unexpired API key whose owning user is inactive still
authenticates — get_current_user returns the inactive owner (and stamps
last_used_at) — contradicting the requirement that the owning user be
subject to the same active check as password login. -/
theorem C6_api_key_authenticates_inactive_user :
    uInactive.is_active = false ∧
    (get_current_user dbApiKey [] "kb" 50 (.apiKey "ak_secret")).1 = .ok uInactive ∧
    (get_current_user dbApiKey [] "kb" 50 (.apiKey "ak_secret")).2.apiKeys
      = [{ keyOfInactive with last_used_at := some 50 }] :=
  ⟨rfl, rfl, rfl⟩

end AuthSvc
